import Mathlib

/-!
Shallow embedding of the playback-state model of `src/mp3_player.py`
(class `MP3Player`).

Modelling conventions:
* Wall-clock instants and durations (Python floats from `time.time()` and
  the mutagen/pygame length probes) are rationals `ℚ`.
* Calls into the pygame mixer are recorded as an `EngineCmd` list returned
  next to the new state; queries (`pygame.mixer.music.get_busy()`) and the
  results of fallible external calls (file dialogs, `mixer.music.load`,
  the duration probes) are passed in as explicit parameters.
* UI-widget updates (labels, button enabled states, the progress bar
  variable) and logging are not part of the state model.
* The trailing `self.update_progress()` call made by `play_music` and
  `play_next_song` only redraws the display and re-arms the 500 ms timer;
  a freshly started track keeps the engine busy, so its immediate state
  effect is nil and each periodic callback is modelled as a single
  `update_progress` step.
-/

namespace MP3

/-- A state-mutating call into the pygame mixer (`pygame.mixer.music.*`).
`play t` is `pygame.mixer.music.play(start=t)`; the argument is `0` for a
plain `play()`. -/
inductive EngineCmd where
  | load (path : String)
  | play (start : ℚ)
  | pause
  | unpause
  | stop
  deriving Repr, DecidableEq

/-- Outcome of the `pygame.mixer.music.load` call together with the track
length probe that follows it in the source:
* `ok len`: load succeeded and the probe (mutagen `MP3(...).info.length`
  or the `pygame.mixer.Sound` fallback) returned `len`;
* `okNoLength`: load succeeded but the fallback probe raised, so
  `track_length` is set to `0` (lines 176-181 of the source);
* `fail`: `mixer.music.load` (or the mutagen probe inside the same `try`)
  raised, landing in the `except` branch. -/
inductive LoadOutcome where
  | ok (len : ℚ)
  | okNoLength
  | fail
  deriving Repr, DecidableEq

/-- The playback state variables of `MP3Player.__init__` (lines 53-63). -/
structure PlayerState where
  current_file : Option String
  playing : Bool
  paused : Bool
  track_length : ℚ
  offset : ℚ
  play_start_time : Option ℚ
  playlist : List String
  current_index : ℤ
  deriving Repr, DecidableEq

/-- The initial state set up by `MP3Player.__init__`. -/
def initState : PlayerState :=
  { current_file := none
    playing := false
    paused := false
    track_length := 0
    offset := 0
    play_start_time := none
    playlist := []
    current_index := -1 }

/-- `file.lower().endswith(".mp3")`, the extension check used by
`load_file` (line 162) and the folder scan (line 205): lowercase the
name character by character, then test for the `.mp3` suffix. -/
def isMp3 (path : String) : Bool :=
  List.isSuffixOf ".mp3".data (path.data.map Char.toLower)

/-- The non-recursive folder scan of `load_folder` (lines 203-208): keep
the listed names whose lowercased name ends in `.mp3`. -/
def mp3Filter (files : List String) : List String :=
  files.filter (fun f => isMp3 f)

/-- The elapsed-time derivation shared by `update_progress` (lines 348-351)
and `seek` (lines 379-382): `offset` while paused, otherwise
`offset + (now - play_start_time)`.  The source reads
`self.play_start_time` unconditionally there; in every state those lines
run on, `playing and not paused` implies the clock is set, so the `none`
fallback (`getD now`, giving plain `offset`) is never exercised on the
guarded paths. -/
def current_time (s : PlayerState) (now : ℚ) : ℚ :=
  if s.paused then s.offset
  else s.offset + (now - s.play_start_time.getD now)

/-- `MP3Player.stop_music` (lines 295-314), state/engine effects only. -/
def stop_music (s : PlayerState) : PlayerState × List EngineCmd :=
  if s.playing then
    ({ s with playing := false, paused := false, offset := 0, play_start_time := none },
      [EngineCmd.stop])
  else (s, [])

/-- `MP3Player.play_music` (lines 246-272).  `playOk` is whether
`pygame.mixer.music.play()` succeeds; on an exception the `except` branch
only shows a message box, leaving the state as it was. -/
def play_music (s : PlayerState) (now : ℚ) (playOk : Bool) :
    PlayerState × List EngineCmd :=
  match s.current_file with
  | none => (s, [])
  | some _ =>
    if playOk then
      ({ s with offset := 0, play_start_time := some now, playing := true, paused := false },
        [EngineCmd.play 0])
    else (s, [EngineCmd.play 0])

/-- `MP3Player.toggle_pause` (lines 274-293). -/
def toggle_pause (s : PlayerState) (now : ℚ) : PlayerState × List EngineCmd :=
  if s.playing then
    if s.paused then
      ({ s with play_start_time := some now, paused := false }, [EngineCmd.unpause])
    else
      ({ s with
          offset := (match s.play_start_time with
            | some t => s.offset + (now - t)
            | none => s.offset),
          play_start_time := none,
          paused := true }, [EngineCmd.pause])
  else (s, [])

/-- `MP3Player.load_file` (lines 147-188).  `file_path = ""` models the
dialog being cancelled (falsy path).  Note the source clears the playlist,
resets the index and overwrites `current_file` (lines 157-161) before the
extension check. -/
def load_file (s : PlayerState) (file_path : String) (out : LoadOutcome) :
    PlayerState × List EngineCmd :=
  if file_path = "" then (s, [])
  else
    let s1 := { s with playlist := [], current_index := -1, current_file := some file_path }
    if isMp3 file_path then
      match out with
      | LoadOutcome.ok len => ({ s1 with track_length := len }, [EngineCmd.load file_path])
      | LoadOutcome.okNoLength => ({ s1 with track_length := 0 }, [EngineCmd.load file_path])
      | LoadOutcome.fail => ({ s1 with current_file := none }, [EngineCmd.load file_path])
    else (s1, [])

/-- `MP3Player.play_next_song` (lines 429-464), minus the trailing
`update_progress` display call.  The index update and `current_file`
assignment (lines 435-436) happen before the `try`, so they survive a
`LoadOutcome.fail`; the `except` branch (lines 463-464) only logs. -/
def play_next_song (s : PlayerState) (now : ℚ) (out : LoadOutcome) :
    PlayerState × List EngineCmd :=
  if s.playlist.isEmpty then (s, [])
  else
    let idx : ℤ := (s.current_index + 1) % (s.playlist.length : ℤ)
    let file := s.playlist.getD idx.toNat ""
    let s1 := { s with current_index := idx, current_file := some file }
    match out with
    | LoadOutcome.fail => (s1, [EngineCmd.load file])
    | LoadOutcome.ok len =>
        ({ s1 with track_length := len, offset := 0, play_start_time := some now,
                   playing := true, paused := false },
          [EngineCmd.load file, EngineCmd.play 0])
    | LoadOutcome.okNoLength =>
        ({ s1 with track_length := 0, offset := 0, play_start_time := some now,
                   playing := true, paused := false },
          [EngineCmd.load file, EngineCmd.play 0])

/-- `MP3Player.load_folder` (lines 190-244).  `files` is the
`os.listdir` result, `shuffled` the playlist after `random.shuffle`
(a permutation of `mp3Filter files`, assumed where needed), `out` the
load/probe outcome for the first entry and `playOk` whether the
auto-start `play_music` call succeeds (its own internal `try` catches a
play failure, so it does not reach `load_folder`'s `except`). -/
def load_folder (s : PlayerState) (files shuffled : List String)
    (out : LoadOutcome) (now : ℚ) (playOk : Bool) : PlayerState × List EngineCmd :=
  let stopped := if s.playing then stop_music s else (s, [])
  if (mp3Filter files).isEmpty then stopped
  else
    let file := shuffled.getD 0 ""
    let s1 := { stopped.1 with
                playlist := shuffled, current_index := 0, current_file := some file }
    match out with
    | LoadOutcome.fail =>
        ({ s1 with current_file := none }, stopped.2 ++ [EngineCmd.load file])
    | LoadOutcome.ok len =>
        let started := play_music { s1 with track_length := len } now playOk
        (started.1, stopped.2 ++ [EngineCmd.load file] ++ started.2)
    | LoadOutcome.okNoLength =>
        let started := play_music { s1 with track_length := 0 } now playOk
        (started.1, stopped.2 ++ [EngineCmd.load file] ++ started.2)

/-- The elapsed value computed and clamped by `update_progress`
(lines 348-353): the derived current time, capped at `track_length`. -/
def tickElapsed (s : PlayerState) (now : ℚ) : ℚ :=
  min (current_time s now) s.track_length

/-- The completion condition of `update_progress` (lines 347 and 361):
the body runs (`playing and track_length > 0`) and the engine reports no
audio (`not get_busy()`) while not paused. -/
def tickCompletion (s : PlayerState) (busy : Bool) : Bool :=
  s.playing && decide (0 < s.track_length) && !busy && !s.paused

/-- One invocation of the periodic `MP3Player.update_progress` callback
(lines 342-369), state/engine effects only: display updates and the
`root.after` re-arm are UI.  `busy` is the `pygame.mixer.music.get_busy()`
result and `out` the load outcome used if the completion branch
auto-advances. -/
def update_progress (s : PlayerState) (now : ℚ) (busy : Bool) (out : LoadOutcome) :
    PlayerState × List EngineCmd :=
  if s.playing = true ∧ 0 < s.track_length then
    if busy = false ∧ s.paused = false then
      if s.playlist.isEmpty then stop_music s
      else play_next_song s now out
    else (s, [])
  else (s, [])

/-- `MP3Player.seek` (lines 371-397). -/
def seek (s : PlayerState) (now : ℚ) (delta : ℚ) : PlayerState × List EngineCmd :=
  if s.playing = true ∧ 0 < s.track_length then
    let target := current_time s now + delta
    let new_time := if target < 0 then 0
      else if s.track_length < target then s.track_length - 1
      else target
    if s.paused then
      ({ s with offset := new_time, play_start_time := none },
        [EngineCmd.play new_time, EngineCmd.pause])
    else
      ({ s with offset := new_time, play_start_time := some now },
        [EngineCmd.play new_time])
  else (s, [])

/-- `MP3Player.jump_to_position` (lines 399-415): `fraction` is
`event.x / widget_width` from the progress-bar click. -/
def jump_to_position (s : PlayerState) (now : ℚ) (fraction : ℚ) :
    PlayerState × List EngineCmd :=
  if s.playing = true ∧ 0 < s.track_length then
    let new_time := fraction * s.track_length
    seek s now (new_time - current_time s now)
  else (s, [])

/-- `MP3Player.rewind_music` (lines 417-421). -/
def rewind_music (s : PlayerState) (now : ℚ) : PlayerState × List EngineCmd :=
  seek s now (-5)

/-- `MP3Player.fast_forward_music` (lines 423-427). -/
def fast_forward_music (s : PlayerState) (now : ℚ) : PlayerState × List EngineCmd :=
  seek s now 5

/-- Iterated `play_next_song`, one `(now, outcome)` pair per advance. -/
def advanceMany (s : PlayerState) (steps : List (ℚ × LoadOutcome)) : PlayerState :=
  steps.foldl (fun st p => (play_next_song st p.1 p.2).1) s

end MP3

namespace MP3

/-! ## Helper lemmas -/

/-- On the active path (`playing` with a known positive duration), `seek`
stores the clamped target into `offset` in both the paused and the
non-paused branch. -/
lemma seek_offset_eq (s : PlayerState) (now delta : ℚ)
    (hp : s.playing = true) (h0 : 0 < s.track_length) :
    ((seek s now delta).1).offset =
      (if current_time s now + delta < 0 then 0
       else if s.track_length < current_time s now + delta then s.track_length - 1
       else current_time s now + delta) := by
  have hg : s.playing = true ∧ 0 < s.track_length := ⟨hp, h0⟩
  by_cases hpau : s.paused <;> simp [seek, hg, hpau]

/-! ## C1 -/

/-- State used by the C1 counterexample: playing a track of known
duration 1/2 second from its start. -/
def shortTrack : PlayerState :=
  { current_file := some "a.mp3", playing := true, paused := false,
    track_length := 1/2, offset := 0, play_start_time := some 0,
    playlist := [], current_index := -1 }

/-- C1 counterexample: on a playing track of known positive duration 1/2,
`seek 2` overshoots the end, and the code's clamp `track_length - 1`
(line 387) yields the negative position `-1/2`, contradicting the claim
that the position after any seek is never negative. -/
theorem seek_overshoot_negative_cex :
    0 < shortTrack.track_length ∧ ((seek shortTrack 0 2).1).offset < 0 := by
  constructor
  · norm_num [shortTrack]
  · norm_num [seek, current_time, shortTrack]

/-- C1 (amended): when the track is playing and its known duration
exceeds the 1-second epsilon, the seek target (current elapsed plus
delta) is clamped: below 0 it becomes exactly 0, strictly beyond the
duration it becomes `duration - 1`, and the stored position is always in
`[0, duration]`, reaching `duration` itself only when the un-clamped
target equals the duration exactly. -/
theorem seek_clamps_when_duration_over_one (s : PlayerState) (now delta : ℚ)
    (hp : s.playing = true) (hl : 1 < s.track_length) :
    0 ≤ ((seek s now delta).1).offset ∧
    ((seek s now delta).1).offset ≤ s.track_length ∧
    (current_time s now + delta < 0 → ((seek s now delta).1).offset = 0) ∧
    (s.track_length < current_time s now + delta →
      ((seek s now delta).1).offset = s.track_length - 1) ∧
    (current_time s now + delta ≠ s.track_length →
      ((seek s now delta).1).offset < s.track_length) := by
  have h0 : (0:ℚ) < s.track_length := lt_trans one_pos hl
  rw [seek_offset_eq s now delta hp h0]
  split_ifs with h1 h2
  · refine ⟨le_refl 0, le_of_lt h0, fun _ => rfl, fun h => absurd h (by linarith), fun _ => h0⟩
  · refine ⟨by linarith, by linarith, fun h => absurd h h1, fun _ => rfl, fun _ => by linarith⟩
  · push_neg at h1 h2
    exact ⟨h1, h2, fun h => absurd h (by linarith), fun h => absurd h (by linarith),
      fun h => lt_of_le_of_ne h2 h⟩

/-- State used by the C1 witness: playing a 30-second track, 2 seconds in. -/
def longTrack : PlayerState :=
  { current_file := some "a.mp3", playing := true, paused := false,
    track_length := 30, offset := 2, play_start_time := some 0,
    playlist := [], current_index := -1 }

/-- Witness for C1 at a concrete input: a far-forward seek on a playing
30-second track lands at a nonnegative position. -/
theorem seek_clamps_when_duration_over_one_witness :
    longTrack.playing = true ∧ (1:ℚ) < longTrack.track_length ∧
    0 ≤ ((seek longTrack 0 100).1).offset := by
  refine ⟨rfl, by norm_num [longTrack],
    (seek_clamps_when_duration_over_one longTrack 0 100 rfl (by norm_num [longTrack])).1⟩

/-! ## C10 -/

/-- C10: when the playing flag is false, `seek` and `jump_to_position`
are silent no-ops: the state is returned unchanged and no engine command
is issued, even if a track with positive known duration is loaded. -/
theorem stopped_seek_is_noop (s : PlayerState) (now delta f : ℚ)
    (h : s.playing = false) :
    seek s now delta = (s, []) ∧ jump_to_position s now f = (s, []) := by
  constructor
  · simp [seek, h]
  · simp [jump_to_position, h]

/-- State used by the C10 witness: a loaded 30-second track, not playing. -/
def stoppedLoaded : PlayerState :=
  { current_file := some "a.mp3", playing := false, paused := false,
    track_length := 30, offset := 0, play_start_time := none,
    playlist := [], current_index := -1 }

/-- Witness for C10 at a concrete input: with a loaded 30-second track in
the stopped state, a 5-second seek and a mid-track jump both do nothing. -/
theorem stopped_seek_is_noop_witness :
    stoppedLoaded.playing = false ∧ 0 < stoppedLoaded.track_length ∧
    seek stoppedLoaded 1 5 = (stoppedLoaded, []) ∧
    jump_to_position stoppedLoaded 1 (1/2) = (stoppedLoaded, []) := by
  refine ⟨rfl, by norm_num [stoppedLoaded],
    (stopped_seek_is_noop stoppedLoaded 1 5 (1/2) rfl).1,
    (stopped_seek_is_noop stoppedLoaded 1 5 (1/2) rfl).2⟩

end MP3

namespace MP3

/-! ## C3 -/

/-- State used by C3: playing a 10-second track with no playlist. -/
def playingNoPlaylist : PlayerState :=
  { current_file := some "a.mp3", playing := true, paused := false,
    track_length := 10, offset := 4, play_start_time := some 0,
    playlist := [], current_index := -1 }

/-- C3 counterexample: when the completion condition fires (engine not
busy, not paused), `update_progress` is not side-effect free: here it
stops playback, changing the playing flag and issuing an engine stop
command (lines 360-368 of the source). -/
theorem tick_completion_effects_cex :
    ((update_progress playingNoPlaylist 4 false LoadOutcome.okNoLength).1).playing = false ∧
    (update_progress playingNoPlaylist 4 false LoadOutcome.okNoLength).2 =
      [EngineCmd.stop] := by
  constructor <;> norm_num [update_progress, playingNoPlaylist, stop_music]

/-- C3 (amended): as long as the completion condition does not fire
(engine busy, or paused, or not playing, or duration unknown), one
invocation of the periodic progress update issues no engine command and
leaves the model state unchanged; its elapsed/completion outputs are the
pure functions `tickElapsed` and `tickCompletion` of the state and the
inputs.  When completion fires it stops or auto-advances, with engine
commands. -/
theorem tick_noop_unless_completion (s : PlayerState) (now : ℚ) (busy : Bool)
    (out : LoadOutcome) (h : tickCompletion s busy = false) :
    update_progress s now busy out = (s, []) := by
  by_cases h1 : s.playing = true ∧ 0 < s.track_length
  · rw [update_progress, if_pos h1]
    by_cases h2 : busy = false ∧ s.paused = false
    · exfalso
      rw [tickCompletion, h1.1, h2.1, h2.2] at h
      simp [decide_eq_true h1.2] at h
    · rw [if_neg h2]
  · rw [update_progress, if_neg h1]

/-- Witness for C3 at a concrete input: while the engine is still busy,
the tick leaves the playing state and the engine alone. -/
theorem tick_noop_unless_completion_witness :
    tickCompletion playingNoPlaylist true = false ∧
    update_progress playingNoPlaylist 4 true LoadOutcome.okNoLength =
      (playingNoPlaylist, []) := by
  refine ⟨by norm_num [tickCompletion, playingNoPlaylist],
    tick_noop_unless_completion playingNoPlaylist 4 true LoadOutcome.okNoLength
      (by norm_num [tickCompletion, playingNoPlaylist])⟩

/-! ## C4 -/

/-- State used by the C4 counterexample: playing, with an old playlist. -/
def playingBeforeFolder : PlayerState :=
  { current_file := some "a.mp3", playing := true, paused := false,
    track_length := 10, offset := 3, play_start_time := some 0,
    playlist := ["a.mp3"], current_index := 0 }

/-- C4 counterexample: `load_folder` stops current playback (lines
198-200) before the scan, so when the scan of a folder with no `.mp3`
files fails, a previously Playing state is not untouched: the playing
flag has been cleared and the offset reset. -/
theorem load_folder_empty_stops_playback_cex :
    playingBeforeFolder.playing = true ∧
    mp3Filter ["x.wav"] = [] ∧
    ((load_folder playingBeforeFolder ["x.wav"] [] LoadOutcome.okNoLength 0 true).1).playing
      = false ∧
    ((load_folder playingBeforeFolder ["x.wav"] [] LoadOutcome.okNoLength 0 true).1).offset
      ≠ playingBeforeFolder.offset := by
  refine ⟨rfl, rfl, ?_, ?_⟩ <;>
    norm_num [load_folder, mp3Filter, stop_music, playingBeforeFolder,
      show isMp3 "x.wav" = false from rfl]

/-- C4 (amended): when the folder scan finds no `.mp3` file, `load_folder`
returns having done nothing beyond the unconditional stop that precedes
the scan: playlist, index, current track and track length are preserved,
and from a non-playing state the whole operation is a strict no-op; from
Playing/Paused the playback state, offset and segment clock have already
been reset by `stop_music`. -/
theorem load_folder_empty_scan (s : PlayerState) (files shuffled : List String)
    (out : LoadOutcome) (now : ℚ) (playOk : Bool)
    (h : mp3Filter files = []) :
    load_folder s files shuffled out now playOk =
      (if s.playing then stop_music s else (s, [])) ∧
    ((load_folder s files shuffled out now playOk).1).playlist = s.playlist ∧
    ((load_folder s files shuffled out now playOk).1).current_index = s.current_index ∧
    ((load_folder s files shuffled out now playOk).1).current_file = s.current_file ∧
    ((load_folder s files shuffled out now playOk).1).track_length = s.track_length ∧
    (s.playing = false → load_folder s files shuffled out now playOk = (s, [])) := by
  have h1 : load_folder s files shuffled out now playOk =
      (if s.playing then stop_music s else (s, [])) := by
    simp [load_folder, h]
  refine ⟨h1, ?_, ?_, ?_, ?_, ?_⟩ <;> rw [h1] <;> cases hb : s.playing <;>
    simp [stop_music, hb]

/-- State used by the C4 witness: stopped, with a loaded track and playlist. -/
def stoppedBeforeFolder : PlayerState :=
  { current_file := some "a.mp3", playing := false, paused := false,
    track_length := 10, offset := 0, play_start_time := none,
    playlist := ["a.mp3"], current_index := 0 }

/-- Witness for C4 at a concrete input: from a stopped state, scanning a
folder holding only `x.wav` changes nothing and issues no command. -/
theorem load_folder_empty_scan_witness :
    mp3Filter ["x.wav"] = [] ∧ stoppedBeforeFolder.playing = false ∧
    load_folder stoppedBeforeFolder ["x.wav"] [] LoadOutcome.okNoLength 0 true =
      (stoppedBeforeFolder, []) := by
  refine ⟨rfl, rfl,
    (load_folder_empty_scan stoppedBeforeFolder ["x.wav"] [] LoadOutcome.okNoLength 0 true
      rfl).2.2.2.2.2 rfl⟩

/-! ## C5 -/

/-- State used by C5: a loaded track with a two-entry playlist. -/
def loadedPlaylistState : PlayerState :=
  { current_file := some "a.mp3", playing := false, paused := false,
    track_length := 10, offset := 0, play_start_time := none,
    playlist := ["a.mp3", "b.mp3"], current_index := 0 }

/-- C5 counterexample: `load_file` clears the playlist, resets the index
and overwrites `current_file` (lines 157-161) before the extension check,
so rejecting `x.wav` with UnsupportedFormat does not preserve the
previous playlist, index or current-track reference. -/
theorem load_file_unsupported_clobbers_cex :
    isMp3 "x.wav" = false ∧
    ((load_file loadedPlaylistState "x.wav" LoadOutcome.okNoLength).1).playlist = [] ∧
    ((load_file loadedPlaylistState "x.wav" LoadOutcome.okNoLength).1).current_index = -1 ∧
    ((load_file loadedPlaylistState "x.wav" LoadOutcome.okNoLength).1).current_file
      = some "x.wav" ∧
    loadedPlaylistState.playlist ≠ [] ∧
    loadedPlaylistState.current_file ≠ some "x.wav" := by
  refine ⟨rfl, rfl, rfl, rfl, by simp [loadedPlaylistState], by simp [loadedPlaylistState]⟩

/-- C5 (amended): on a path with an unrecognized extension, `load_file`
issues no engine command and leaves playing/paused, offset, clock and
track length unchanged, but it has already cleared the playlist, set the
index to -1 and pointed `current_file` at the rejected path. -/
theorem load_file_unsupported_extension (s : PlayerState) (p : String)
    (out : LoadOutcome) (hne : ¬ p = "") (h : isMp3 p = false) :
    load_file s p out =
      ({ s with playlist := [], current_index := -1, current_file := some p }, []) := by
  simp [load_file, hne, h]

/-- Witness for C5 at a concrete input. -/
theorem load_file_unsupported_extension_witness :
    ¬ "x.wav" = "" ∧ isMp3 "x.wav" = false ∧
    load_file loadedPlaylistState "x.wav" LoadOutcome.okNoLength =
      ({ loadedPlaylistState with
         playlist := [], current_index := -1, current_file := some "x.wav" }, []) := by
  refine ⟨by decide, rfl,
    load_file_unsupported_extension loadedPlaylistState "x.wav" LoadOutcome.okNoLength
      (by decide) rfl⟩

/-! ## C6 -/

/-- State used by C6: playing, with a one-entry playlist to advance into. -/
def advanceFailState : PlayerState :=
  { current_file := some "a.mp3", playing := true, paused := false,
    track_length := 10, offset := 0, play_start_time := some 0,
    playlist := ["b.mp3"], current_index := 0 }

/-- C6 counterexample: when the engine load fails during
`play_next_song`, the `except` branch (lines 463-464) only logs, so the
current-track reference is left pointing at the failed playlist entry
rather than being cleared. -/
theorem advance_load_error_keeps_file_cex :
    ((play_next_song advanceFailState 5 LoadOutcome.fail).1).current_file = some "b.mp3" ∧
    ((play_next_song advanceFailState 5 LoadOutcome.fail).1).current_file ≠ none := by
  constructor
  · rfl
  · intro h
    rw [show ((play_next_song advanceFailState 5 LoadOutcome.fail).1).current_file
        = some "b.mp3" from rfl] at h
    exact Option.noConfusion h

/-- C6 (amended): after an engine load failure, `load_file` and
`load_folder` clear the current-track reference, but `play_next_song`
does not: it leaves `current_file` pointing at the playlist entry whose
load failed. -/
theorem load_error_current_file (s : PlayerState) (p : String)
    (files shuffled : List String) (now : ℚ) (playOk : Bool)
    (hne : ¬ p = "") (hmp3 : isMp3 p = true)
    (hfiles : (mp3Filter files).isEmpty = false) :
    ((load_file s p LoadOutcome.fail).1).current_file = none ∧
    ((load_folder s files shuffled LoadOutcome.fail now playOk).1).current_file = none ∧
    (s.playlist.isEmpty = false →
      ((play_next_song s now LoadOutcome.fail).1).current_file =
        some (s.playlist.getD ((s.current_index + 1) % (s.playlist.length : ℤ)).toNat "")) := by
  refine ⟨?_, ?_, ?_⟩
  · simp [load_file, hne, hmp3]
  · simp [load_folder, hfiles]
  · intro hpl
    simp [play_next_song, hpl]

/-- Witness for C6 at concrete inputs. -/
theorem load_error_current_file_witness :
    isMp3 "a.mp3" = true ∧ (mp3Filter ["c.mp3"]).isEmpty = false ∧
    advanceFailState.playlist.isEmpty = false ∧
    ((load_file advanceFailState "a.mp3" LoadOutcome.fail).1).current_file = none ∧
    ((play_next_song advanceFailState 5 LoadOutcome.fail).1).current_file =
      some (advanceFailState.playlist.getD
        ((advanceFailState.current_index + 1) %
          (advanceFailState.playlist.length : ℤ)).toNat "") := by
  refine ⟨rfl, rfl, rfl,
    (load_error_current_file advanceFailState "a.mp3" ["c.mp3"] ["c.mp3"] 5 true
      (by decide) rfl rfl).1,
    (load_error_current_file advanceFailState "a.mp3" ["c.mp3"] ["c.mp3"] 5 true
      (by decide) rfl rfl).2.2 rfl⟩

end MP3

namespace MP3

/-! ## C7 -/

/-- C7: from any state with a loaded current track, a successful `play`
resets `offset` to 0, starts the segment clock at `now`, sets
Playing/not-Paused and issues a plain engine play command; the derived
elapsed time immediately after is 0. -/
theorem play_restarts_from_zero (s : PlayerState) (now : ℚ) (f : String)
    (h : s.current_file = some f) :
    play_music s now true =
      ({ s with offset := 0, play_start_time := some now, playing := true, paused := false },
        [EngineCmd.play 0]) ∧
    current_time ((play_music s now true).1) now = 0 := by
  have h1 : play_music s now true =
      ({ s with offset := 0, play_start_time := some now, playing := true, paused := false },
        [EngineCmd.play 0]) := by
    simp [play_music, h]
  refine ⟨h1, ?_⟩
  rw [h1]
  simp [current_time]

/-- State used by the C7 witness: paused 7 seconds into a 30-second
track. -/
def pausedMidTrack : PlayerState :=
  { current_file := some "a.mp3", playing := true, paused := true,
    track_length := 30, offset := 7, play_start_time := none,
    playlist := [], current_index := -1 }

/-- Witness for C7 at a concrete input: playing again from a paused state
with a prior offset of 7 restarts at elapsed 0. -/
theorem play_restarts_from_zero_witness :
    pausedMidTrack.current_file = some "a.mp3" ∧ pausedMidTrack.offset = 7 ∧
    ((play_music pausedMidTrack 9 true).1).offset = 0 ∧
    current_time ((play_music pausedMidTrack 9 true).1) 9 = 0 := by
  refine ⟨rfl, rfl, ?_, (play_restarts_from_zero pausedMidTrack 9 "a.mp3" rfl).2⟩
  rw [(play_restarts_from_zero pausedMidTrack 9 "a.mp3" rfl).1]

/-! ## C8 -/

/-- C8: from Playing (segment clock at `t0`), the first `toggle_pause`
at `t1` commits the elapsed time into `offset` and stops the segment
clock; the second at `t2` restarts the clock without altering `offset`,
and the elapsed time at the instant of resume equals the elapsed time at
the moment of the first toggle. -/
theorem toggle_pause_roundtrip (s : PlayerState) (t0 t1 t2 : ℚ)
    (hp : s.playing = true) (hnp : s.paused = false)
    (hs : s.play_start_time = some t0) :
    ((toggle_pause s t1).1).paused = true ∧
    ((toggle_pause s t1).1).offset = s.offset + (t1 - t0) ∧
    ((toggle_pause s t1).1).play_start_time = none ∧
    ((toggle_pause (toggle_pause s t1).1 t2).1).playing = true ∧
    ((toggle_pause (toggle_pause s t1).1 t2).1).paused = false ∧
    ((toggle_pause (toggle_pause s t1).1 t2).1).offset = ((toggle_pause s t1).1).offset ∧
    ((toggle_pause (toggle_pause s t1).1 t2).1).play_start_time = some t2 ∧
    current_time ((toggle_pause (toggle_pause s t1).1 t2).1) t2 = current_time s t1 := by
  have h1 : (toggle_pause s t1).1 =
      { s with offset := s.offset + (t1 - t0), play_start_time := none, paused := true } := by
    simp [toggle_pause, hp, hnp, hs]
  have h2 : (toggle_pause (toggle_pause s t1).1 t2).1 =
      { s with
        offset := s.offset + (t1 - t0), play_start_time := some t2, paused := false } := by
    rw [h1]
    simp [toggle_pause, hp]
  rw [h2, h1]
  refine ⟨rfl, rfl, rfl, hp, rfl, rfl, rfl, ?_⟩
  simp [current_time, hnp, hs]

/-- State used by the C8 witness: playing since instant 1 with 2 seconds
of earlier segments. -/
def playingMidTrack : PlayerState :=
  { current_file := some "a.mp3", playing := true, paused := false,
    track_length := 30, offset := 2, play_start_time := some 1,
    playlist := [], current_index := -1 }

/-- Witness for C8 at concrete instants 1, 3, 5. -/
theorem toggle_pause_roundtrip_witness :
    playingMidTrack.playing = true ∧ playingMidTrack.paused = false ∧
    playingMidTrack.play_start_time = some 1 ∧
    current_time ((toggle_pause (toggle_pause playingMidTrack 3).1 5).1) 5 =
      current_time playingMidTrack 3 := by
  exact ⟨rfl, rfl, rfl,
    (toggle_pause_roundtrip playingMidTrack 1 3 5 rfl rfl rfl).2.2.2.2.2.2.2⟩

/-! ## C9 -/

/-- `play_next_song` never touches the playlist itself. -/
lemma play_next_song_playlist_eq (s : PlayerState) (now : ℚ) (out : LoadOutcome) :
    ((play_next_song s now out).1).playlist = s.playlist := by
  by_cases h : s.playlist.isEmpty <;> cases out <;> simp [play_next_song, h]

/-- On a non-empty playlist, `play_next_song` steps the index to
`(i + 1) mod N` whatever the load outcome. -/
lemma play_next_song_index_eq (s : PlayerState) (now : ℚ) (out : LoadOutcome)
    (h : s.playlist.isEmpty = false) :
    ((play_next_song s now out).1).current_index =
      (s.current_index + 1) % (s.playlist.length : ℤ) := by
  cases out <;> simp [play_next_song, h]

/-- Iterating `play_next_song` preserves the playlist and moves the
index by the number of advances, modulo the playlist length. -/
lemma advanceMany_index (steps : List (ℚ × LoadOutcome)) (s : PlayerState)
    (hne : s.playlist.isEmpty = false)
    (h0 : 0 ≤ s.current_index)
    (h1 : s.current_index < (s.playlist.length : ℤ)) :
    (advanceMany s steps).playlist = s.playlist ∧
    (advanceMany s steps).current_index =
      (s.current_index + steps.length) % (s.playlist.length : ℤ) := by
  induction steps generalizing s with
  | nil =>
      refine ⟨rfl, ?_⟩
      simp [advanceMany]
      exact (Int.emod_eq_of_lt h0 h1).symm
  | cons p ps ih =>
      have hN : (0:ℤ) < (s.playlist.length : ℤ) := by
        have hx : s.playlist ≠ [] := by
          intro hy
          rw [hy] at hne
          simp at hne
        exact_mod_cast List.length_pos.mpr hx
      have hstep : advanceMany s (p :: ps) = advanceMany ((play_next_song s p.1 p.2).1) ps := rfl
      have hpl1 : ((play_next_song s p.1 p.2).1).playlist = s.playlist :=
        play_next_song_playlist_eq s p.1 p.2
      have hi1 : ((play_next_song s p.1 p.2).1).current_index =
          (s.current_index + 1) % (s.playlist.length : ℤ) :=
        play_next_song_index_eq s p.1 p.2 hne
      have hne1 : ((play_next_song s p.1 p.2).1).playlist.isEmpty = false := by
        rw [hpl1]; exact hne
      have h01 : 0 ≤ ((play_next_song s p.1 p.2).1).current_index := by
        rw [hi1]; exact Int.emod_nonneg _ (ne_of_gt hN)
      have h11 : ((play_next_song s p.1 p.2).1).current_index <
          (((play_next_song s p.1 p.2).1).playlist.length : ℤ) := by
        rw [hi1, hpl1]; exact Int.emod_lt_of_pos _ hN
      have ihx := ih ((play_next_song s p.1 p.2).1) hne1 h01 h11
      rw [hstep]
      refine ⟨ihx.1.trans hpl1, ?_⟩
      rw [ihx.2, hpl1, hi1, Int.emod_add_emod]
      have : s.current_index + 1 + (ps.length : ℤ) =
          s.current_index + ((p :: ps).length : ℤ) := by
        simp
        omega
      rw [this]

/-- C9: on a non-empty playlist of length N with the current index in
range, `play_next_song` sets the index to `(i + 1) mod N` and makes the
entry at that index the current track (whatever the load outcome), and N
consecutive advances return the index to its starting value. -/
theorem advance_next_cycles (s : PlayerState) (now : ℚ) (out : LoadOutcome)
    (steps : List (ℚ × LoadOutcome))
    (hne : s.playlist.isEmpty = false)
    (h0 : 0 ≤ s.current_index)
    (h1 : s.current_index < (s.playlist.length : ℤ))
    (hlen : steps.length = s.playlist.length) :
    ((play_next_song s now out).1).current_index =
      (s.current_index + 1) % (s.playlist.length : ℤ) ∧
    ((play_next_song s now out).1).current_file =
      some (s.playlist.getD
        (((s.current_index + 1) % (s.playlist.length : ℤ)).toNat) "") ∧
    ((play_next_song s now out).1).playlist = s.playlist ∧
    (advanceMany s steps).current_index = s.current_index := by
  refine ⟨play_next_song_index_eq s now out hne, ?_,
    play_next_song_playlist_eq s now out, ?_⟩
  · cases out <;> simp [play_next_song, hne]
  · have h2 := (advanceMany_index steps s hne h0 h1).2
    rw [h2, hlen]
    have h3 : (s.current_index + ((s.playlist.length : ℕ) : ℤ)) %
        ((s.playlist.length : ℕ) : ℤ) = s.current_index % ((s.playlist.length : ℕ) : ℤ) := by
      have h4 := Int.add_mul_emod_self_left (a := s.current_index)
        (b := ((s.playlist.length : ℕ) : ℤ)) (c := 1)
      rw [mul_one] at h4
      exact h4
    rw [h3, Int.emod_eq_of_lt h0 h1]

/-- State used by the C9 witness: index 0 in a two-entry playlist. -/
def playlistTwo : PlayerState :=
  { current_file := some "a.mp3", playing := true, paused := false,
    track_length := 10, offset := 0, play_start_time := some 0,
    playlist := ["a.mp3", "b.mp3"], current_index := 0 }

/-- Witness for C9 at a concrete input: one advance goes to index 1 and
track `b.mp3`; two advances return to index 0. -/
theorem advance_next_cycles_witness :
    playlistTwo.playlist.isEmpty = false ∧
    ((play_next_song playlistTwo 1 LoadOutcome.okNoLength).1).current_index = 1 ∧
    ((play_next_song playlistTwo 1 LoadOutcome.okNoLength).1).current_file = some "b.mp3" ∧
    (advanceMany playlistTwo
      [(1, LoadOutcome.okNoLength), (2, LoadOutcome.okNoLength)]).current_index = 0 := by
  have h := advance_next_cycles playlistTwo 1 LoadOutcome.okNoLength
    [(1, LoadOutcome.okNoLength), (2, LoadOutcome.okNoLength)] rfl
    (by norm_num [playlistTwo]) (by norm_num [playlistTwo]) rfl
  refine ⟨rfl, ?_, ?_, ?_⟩
  · rw [h.1]; rfl
  · rw [h.2.1]; rfl
  · rw [h.2.2.2]; rfl

end MP3

namespace MP3

/-! ## C2 -/

/-- `load_file` never writes the `offset` field. -/
lemma load_file_offset (s : PlayerState) (p : String) (out : LoadOutcome) :
    ((load_file s p out).1).offset = s.offset := by
  rw [load_file]
  split_ifs <;> cases out <;> rfl

/-- A successful `play_music` zeroes `offset`; a failed or trackless one
leaves it alone. -/
lemma play_music_offset_nonneg (s : PlayerState) (now : ℚ) (playOk : Bool)
    (h : 0 ≤ s.offset) : 0 ≤ ((play_music s now playOk).1).offset := by
  rw [play_music]
  cases hcf : s.current_file with
  | none => exact h
  | some f =>
      split_ifs with hok
      · exact le_refl 0
      · exact h

/-- `stop_music` zeroes `offset` or leaves it alone. -/
lemma stop_music_offset_nonneg (s : PlayerState) (h : 0 ≤ s.offset) :
    0 ≤ ((stop_music s).1).offset := by
  rw [stop_music]
  split_ifs
  · exact le_refl 0
  · exact h

/-- `toggle_pause` only ever adds the nonnegative current segment to
`offset` (nonnegative provided the clock started no later than `now`). -/
lemma toggle_pause_offset_nonneg (s : PlayerState) (now : ℚ) (h : 0 ≤ s.offset)
    (hclock : ∀ t : ℚ, s.play_start_time = some t → t ≤ now) :
    0 ≤ ((toggle_pause s now).1).offset := by
  rw [toggle_pause]
  split_ifs with h1 h2
  · exact h
  · cases hst : s.play_start_time with
    | none => simp only [hst]; exact h
    | some t =>
        have ht := hclock t hst
        simp only [hst]
        show 0 ≤ s.offset + (now - t)
        linarith
  · exact h

/-- `seek` keeps `offset` nonnegative as long as the known duration
exceeds the 1-second epsilon. -/
lemma seek_offset_nonneg (s : PlayerState) (now delta : ℚ) (h : 0 ≤ s.offset)
    (hlen : 1 < s.track_length) : 0 ≤ ((seek s now delta).1).offset := by
  by_cases hp : s.playing = true
  · rw [seek_offset_eq s now delta hp (lt_trans one_pos hlen)]
    split_ifs with ha hb
    · exact le_refl 0
    · linarith
    · push_neg at ha
      exact ha
  · have hx : seek s now delta = (s, []) := by
      rw [seek, if_neg]
      intro hc
      exact hp hc.1
    rw [hx]
    exact h

/-- `jump_to_position` inherits seek's offset nonnegativity. -/
lemma jump_offset_nonneg (s : PlayerState) (now f : ℚ) (h : 0 ≤ s.offset)
    (hlen : 1 < s.track_length) : 0 ≤ ((jump_to_position s now f).1).offset := by
  rw [jump_to_position]
  split_ifs with hp
  · exact seek_offset_nonneg s now _ h hlen
  · exact h

/-- `play_next_song` zeroes `offset` or leaves it alone. -/
lemma play_next_song_offset_nonneg (s : PlayerState) (now : ℚ) (out : LoadOutcome)
    (h : 0 ≤ s.offset) : 0 ≤ ((play_next_song s now out).1).offset := by
  rw [play_next_song]
  split_ifs with h1
  · exact h
  · cases out with
    | ok len => exact le_refl 0
    | okNoLength => exact le_refl 0
    | fail => exact h

/-- One `update_progress` step only moves `offset` through `stop_music`
or `play_next_song`. -/
lemma update_progress_offset_nonneg (s : PlayerState) (now : ℚ) (busy : Bool)
    (out : LoadOutcome) (h : 0 ≤ s.offset) :
    0 ≤ ((update_progress s now busy out).1).offset := by
  rw [update_progress]
  split_ifs
  · exact stop_music_offset_nonneg s h
  · exact play_next_song_offset_nonneg s now out h
  · exact h
  · exact h

/-- `load_folder` only moves `offset` through `stop_music` and
`play_music`. -/
lemma load_folder_offset_nonneg (s : PlayerState) (files shuffled : List String)
    (out : LoadOutcome) (now : ℚ) (playOk : Bool) (h : 0 ≤ s.offset) :
    0 ≤ ((load_folder s files shuffled out now playOk).1).offset := by
  have h0 : 0 ≤ ((stop_music s).1).offset := stop_music_offset_nonneg s h
  rw [load_folder]
  by_cases hp : s.playing = true
  · rw [if_pos hp]
    split_ifs with h1
    · exact h0
    · cases out with
      | fail => exact h0
      | ok len => exact play_music_offset_nonneg _ now playOk h0
      | okNoLength => exact play_music_offset_nonneg _ now playOk h0
  · rw [if_neg hp]
    split_ifs with h1
    · exact h
    · cases out with
      | fail => exact h
      | ok len => exact play_music_offset_nonneg _ now playOk h
      | okNoLength => exact play_music_offset_nonneg _ now playOk h

/-- A state reached from the initial state by loading a half-second
track, playing it, and seeking forward by 2 seconds at instant 0. -/
def reachedShortSeek : PlayerState :=
  (seek (play_music (load_file initState "a.mp3" (LoadOutcome.ok (1/2))).1 0 true).1 0 2).1

/-- C2 counterexample: the state above is reachable, has known positive
duration, and its tick-derived elapsed time is negative: the seek
overshoot clamp `track_length - 1` (line 387) pushed `offset` to `-1/2`,
and `update_progress` only clamps elapsed from above (lines 352-353),
never up to 0. -/
theorem reachable_negative_elapsed_cex :
    0 < reachedShortSeek.track_length ∧ tickElapsed reachedShortSeek 0 < 0 := by
  have e2 : (play_music ((load_file initState "a.mp3" (LoadOutcome.ok (1/2))).1) 0 true).1 =
      { current_file := some "a.mp3", playing := true, paused := false,
        track_length := 1/2, offset := 0, play_start_time := some 0,
        playlist := [], current_index := -1 } := by rfl
  have e3 : reachedShortSeek =
      { current_file := some "a.mp3", playing := true, paused := false,
        track_length := 1/2, offset := -(1/2), play_start_time := some 0,
        playlist := [], current_index := -1 } := by
    rw [reachedShortSeek, e2]
    norm_num [seek, current_time]
  rw [e3]
  constructor
  · norm_num
  · norm_num [tickElapsed, current_time, min_def]

/-- C2 (amended): for states whose `offset` is nonnegative and whose
segment clock (when set) started no later than `now`, the elapsed time
computed and clamped by `update_progress` satisfies
`0 ≤ elapsed ≤ duration` whenever the duration is known and positive;
and every operation preserves `0 ≤ offset`, with `seek` (and the
position-bar jump) doing so only when the known duration exceeds the
1-second clamp epsilon — for durations in (0, 1] the counterexample shows
a seek makes the offset, hence the derived elapsed time, negative. -/
theorem elapsed_bounds_invariant :
    (∀ s : PlayerState, ∀ now : ℚ, 0 ≤ s.offset →
      (∀ t : ℚ, s.play_start_time = some t → t ≤ now) →
      0 < s.track_length →
      0 ≤ tickElapsed s now ∧ tickElapsed s now ≤ s.track_length) ∧
    (∀ s : PlayerState, ∀ p : String, ∀ out : LoadOutcome,
      0 ≤ s.offset → 0 ≤ ((load_file s p out).1).offset) ∧
    (∀ s : PlayerState, ∀ files shuffled : List String, ∀ out : LoadOutcome,
      ∀ now : ℚ, ∀ playOk : Bool,
      0 ≤ s.offset → 0 ≤ ((load_folder s files shuffled out now playOk).1).offset) ∧
    (∀ s : PlayerState, ∀ now : ℚ, ∀ playOk : Bool,
      0 ≤ s.offset → 0 ≤ ((play_music s now playOk).1).offset) ∧
    (∀ s : PlayerState, ∀ now : ℚ, 0 ≤ s.offset →
      (∀ t : ℚ, s.play_start_time = some t → t ≤ now) →
      0 ≤ ((toggle_pause s now).1).offset) ∧
    (∀ s : PlayerState, 0 ≤ s.offset → 0 ≤ ((stop_music s).1).offset) ∧
    (∀ s : PlayerState, ∀ now delta : ℚ, 0 ≤ s.offset → 1 < s.track_length →
      0 ≤ ((seek s now delta).1).offset) ∧
    (∀ s : PlayerState, ∀ now f : ℚ, 0 ≤ s.offset → 1 < s.track_length →
      0 ≤ ((jump_to_position s now f).1).offset) ∧
    (∀ s : PlayerState, ∀ now : ℚ, ∀ busy : Bool, ∀ out : LoadOutcome,
      0 ≤ s.offset → 0 ≤ ((update_progress s now busy out).1).offset) ∧
    (∀ s : PlayerState, ∀ now : ℚ, ∀ out : LoadOutcome,
      0 ≤ s.offset → 0 ≤ ((play_next_song s now out).1).offset) := by
  refine ⟨?_, ?_, ?_, ?_, ?_, ?_, ?_, ?_, ?_, ?_⟩
  · intro s now hoff hclock hlen
    constructor
    · rw [tickElapsed, le_min_iff]
      refine ⟨?_, le_of_lt hlen⟩
      rw [current_time]
      split_ifs with hpau
      · exact hoff
      · cases hst : s.play_start_time with
        | none => simp only [hst, Option.getD_none, sub_self, add_zero]; exact hoff
        | some t =>
            have ht := hclock t hst
            simp only [hst, Option.getD_some]
            linarith
    · exact min_le_right _ _
  · intro s p out hoff
    rw [load_file_offset]
    exact hoff
  · intro s files shuffled out now playOk hoff
    exact load_folder_offset_nonneg s files shuffled out now playOk hoff
  · intro s now playOk hoff
    exact play_music_offset_nonneg s now playOk hoff
  · intro s now hoff hclock
    exact toggle_pause_offset_nonneg s now hoff hclock
  · intro s hoff
    exact stop_music_offset_nonneg s hoff
  · intro s now delta hoff hlen
    exact seek_offset_nonneg s now delta hoff hlen
  · intro s now f hoff hlen
    exact jump_offset_nonneg s now f hoff hlen
  · intro s now busy out hoff
    exact update_progress_offset_nonneg s now busy out hoff
  · intro s now out hoff
    exact play_next_song_offset_nonneg s now out hoff

/-- State used by the C2 witness: playing a 30-second track since
instant 1 with 2 seconds of earlier segments. -/
def witState : PlayerState :=
  { current_file := some "a.mp3", playing := true, paused := false,
    track_length := 30, offset := 2, play_start_time := some 1,
    playlist := [], current_index := -1 }

/-- Witness for C2 at a concrete input: at instant 3 the derived clamped
elapsed time of `witState` lies in `[0, 30]`. -/
theorem elapsed_bounds_invariant_witness :
    0 ≤ witState.offset ∧ 0 < witState.track_length ∧
    0 ≤ tickElapsed witState 3 ∧ tickElapsed witState 3 ≤ witState.track_length := by
  have hclock : ∀ t : ℚ, witState.play_start_time = some t → t ≤ 3 := by
    intro t ht
    rw [show witState.play_start_time = some 1 from rfl] at ht
    injection ht with hx
    rw [← hx]
    norm_num
  refine ⟨by norm_num [witState], by norm_num [witState], ?_, ?_⟩
  · exact (elapsed_bounds_invariant.1 witState 3 (by norm_num [witState]) hclock
      (by norm_num [witState])).1
  · exact (elapsed_bounds_invariant.1 witState 3 (by norm_num [witState]) hclock
      (by norm_num [witState])).2

end MP3
